import Mathlib

/-!
Verification development for the eatsense proximity-search frontend.

The price classifier is embedded from `StallListView.renderPriceIndicator`
(JavaScript); the geospatial math from `HomeScreen.calculateDistance`,
`HomeScreen.isOutsideSearchRadius` and `HomeScreen.calculateRequiredRadius`;
the search-session behaviour from the `HomeScreen` component's state and
handlers, modelled as an event-driven state machine.  Coordinates and
distances are modelled over `ℝ` (the source uses JavaScript floats), price
midpoints over `ℚ` (the source divides small integers by 2), and
JavaScript `NaN` as `Option.none`.
-/

namespace EatSense

/-! ### PriceClassifier: `StallListView.renderPriceIndicator`

JavaScript string primitives are modelled on `List Char`:
`jsSplit` models `String.prototype.split` with a single-character
separator, `jsParseInt` models `parseInt(s, 10)` (`none` standing for
`NaN`), and `jsReplaceFirst` models `String.prototype.replace` with a
one-character pattern and empty replacement (JS `replace` with a string
pattern replaces only the first occurrence). -/

/-- Digit run value: the number denoted by a list of decimal digits. -/
def digitsVal (ds : List Char) : Nat :=
  ds.foldl (fun acc c => acc * 10 + (c.toNat - 48)) 0

/-- `parseInt(s, 10)`: skip leading whitespace, optional sign, then the
longest leading digit run; `none` when there is no digit (JS `NaN`). -/
def jsParseInt (cs : List Char) : Option Int :=
  let cs := cs.dropWhile (fun c => c = ' ' ∨ c = '\t' ∨ c = '\n' ∨ c = '\r')
  match cs with
  | '-' :: rest =>
      let ds := rest.takeWhile Char.isDigit
      if ds.isEmpty then none else some (-(digitsVal ds : Int))
  | '+' :: rest =>
      let ds := rest.takeWhile Char.isDigit
      if ds.isEmpty then none else some (digitsVal ds : Int)
  | _ =>
      let ds := cs.takeWhile Char.isDigit
      if ds.isEmpty then none else some (digitsVal ds : Int)

/-- `s.split(c)` for a one-character separator. -/
def jsSplit (c : Char) : List Char → List (List Char)
  | [] => [[]]
  | x :: xs =>
      if x = c then [] :: jsSplit c xs
      else match jsSplit c xs with
        | [] => [[x]]
        | p :: ps => (x :: p) :: ps

/-- `s.replace(c, "")` — JS `replace` with a string pattern removes only
the first occurrence. -/
def jsReplaceFirst (c : Char) : List Char → List Char
  | [] => []
  | x :: xs => if x = c then xs else x :: jsReplaceFirst c xs

/-- JS `<` on a possibly-`NaN` left operand: `NaN < b` is `false`. -/
def jsLt (a : Option ℚ) (b : ℚ) : Bool :=
  match a with
  | none => false
  | some x => decide (x < b)

/-- The `avgPrice` local of `renderPriceIndicator`: `none` models `NaN`. -/
def avgPriceOf (cs : List Char) : Option ℚ :=
  if cs.contains '-' then
    -- const [min, max] = priceRange.split('-').map(num => parseInt(num, 10));
    let parts := jsSplit '-' cs
    match (parts.get? 0).bind jsParseInt, (parts.get? 1).bind jsParseInt with
    | some mn, some mx => some (((mn : ℚ) + (mx : ℚ)) / 2)
    | _, _ => none
  else if cs.contains '+' then
    -- avgPrice = parseInt(priceRange.replace('+', ''), 10);
    (jsParseInt (jsReplaceFirst '+' cs)).map (fun n => (n : ℚ))
  else
    (jsParseInt cs).map (fun n => (n : ℚ))

/-- The `dollarSigns` if-chain of `renderPriceIndicator`; a `NaN`
average falls through every `<` test to `"$$$$"`. -/
def dollarSignsOf (avgPrice : Option ℚ) : String :=
  if jsLt avgPrice 5 then "$"
  else if jsLt avgPrice 15 then "$$"
  else if jsLt avgPrice 25 then "$$$"
  else "$$$$"

/-- `renderPriceIndicator(priceRange)`: `none` models both a `null`
argument and the component returning `null` (no indicator rendered);
`some s` models rendering the dollar-sign text `s`. -/
def renderPriceIndicator (priceRange : Option String) : Option String :=
  match priceRange with
  | none => none
  | some pr =>
      -- if (!priceRange || priceRange === 'Unknown') return null;
      if pr = "" ∨ pr = "Unknown" then none
      else some (dollarSignsOf (avgPriceOf pr.data))

/-! ### GeoMath: `HomeScreen.calculateDistance` and `deg2rad` -/

/-- `deg2rad(deg) = deg * (Math.PI/180)`. -/
noncomputable def deg2rad (deg : ℝ) : ℝ := deg * (Real.pi / 180)

/-- JavaScript `Math.atan2(y, x)`. -/
noncomputable def atan2 (y x : ℝ) : ℝ :=
  if 0 < x then Real.arctan (y / x)
  else if x < 0 then
    (if 0 ≤ y then Real.arctan (y / x) + Real.pi else Real.arctan (y / x) - Real.pi)
  else
    (if 0 < y then Real.pi / 2 else if y < 0 then -(Real.pi / 2) else 0)

/-- `calculateDistance(lat1, lon1, lat2, lon2)`: haversine distance in km
on a sphere of radius 6371 km, exactly as written in `HomeScreen`. -/
noncomputable def calculateDistance (lat1 lon1 lat2 lon2 : ℝ) : ℝ :=
  let R : ℝ := 6371
  let dLat := deg2rad (lat2 - lat1)
  let dLon := deg2rad (lon2 - lon1)
  let a := Real.sin (dLat / 2) * Real.sin (dLat / 2) +
      Real.cos (deg2rad lat1) * Real.cos (deg2rad lat2) *
      Real.sin (dLon / 2) * Real.sin (dLon / 2)
  let c := 2 * atan2 (Real.sqrt a) (Real.sqrt (1 - a))
  R * c

/-! ### Session data model (`HomeScreen` component state) -/

/-- A map region as delivered by `onRegionChangeComplete`: center plus
full angular spans (`latitudeDelta`/`longitudeDelta`). -/
structure Region where
  latitude : ℝ
  longitude : ℝ
  latitudeDelta : ℝ
  longitudeDelta : ℝ

/-- A location fix (`location.coords`). -/
structure Coord where
  latitude : ℝ
  longitude : ℝ

/-- The `filters` state object. -/
structure Filters where
  cuisine_type : Option String
  price_range : Option String
  dietary : Option String
  radius : ℝ

/-- A JSON response body: either a stall array (stall ids) or some other
JSON document such as an error object. `setStalls(data)` stores whatever
body the response parsed to. -/
inductive Json where
  | arr (ids : List Nat)
  | obj (payload : String)
deriving DecidableEq

/-- One issued `/stalls` query, as composed by `fetchStalls`: the
`URLSearchParams` fields plus a bookkeeping sequence number identifying
the in-flight promise (the source itself carries no such tag). -/
structure Request where
  seq : Nat
  latitude : ℝ
  longitude : ℝ
  radius : ℝ
  cuisine_type : Option String
  price_range : Option String
  dietary : Option String

/-- The `HomeScreen` component state.  `pending`, `nextSeq` and `issued`
are bookkeeping for the in-flight `fetch` promises: `pending` holds the
sequence numbers of unresolved requests, `issued` logs every request ever
sent (most recent last). -/
structure State where
  location : Option Coord
  errorMsg : Option String
  stalls : Json
  loading : Bool
  initialRegion : Option Region
  currentRegion : Option Region
  showSearchAreaButton : Bool
  filters : Filters
  pending : List Nat
  nextSeq : Nat
  issued : List Request

/-- The component's initial state (`useState` initialisers). -/
def initState : State where
  location := none
  errorMsg := none
  stalls := Json.arr []
  loading := true
  initialRegion := none
  currentRegion := none
  showSearchAreaButton := false
  filters := { cuisine_type := none, price_range := none, dietary := none, radius := 2 }
  pending := []
  nextSeq := 0
  issued := []

/-- JavaScript `Math.ceil` as a real-valued function. -/
noncomputable def jsCeil (x : ℝ) : ℝ := ((⌈x⌉ : ℤ) : ℝ)

/-- The center-to-corner distance computed inside
`calculateRequiredRadius` for a given region. -/
noncomputable def cornerDistance (r : Region) : ℝ :=
  let latDelta := r.latitudeDelta / 2
  let lonDelta := r.longitudeDelta / 2
  calculateDistance r.latitude r.longitude (r.latitude + latDelta) (r.longitude + lonDelta)

/-- `calculateRequiredRadius` for a non-null `currentRegion`: double the
corner distance, round up to the nearest 0.5 km, clamp to at least 1 km. -/
noncomputable def requiredRadiusOfRegion (r : Region) : ℝ :=
  let requiredRadius := jsCeil (cornerDistance r * 2 / 0.5) * 0.5
  max requiredRadius 1

/-- `calculateRequiredRadius()`: falls back to `filters.radius` when no
region change has been recorded yet. -/
noncomputable def calculateRequiredRadius (s : State) : ℝ :=
  match s.currentRegion with
  | none => s.filters.radius
  | some current => requiredRadiusOfRegion current

/-- `isOutsideSearchRadius()`: false when either region is unset,
otherwise compares the anchor-center to viewport-center distance with
`filters.radius * 0.5`. -/
noncomputable def isOutsideSearchRadius (s : State) : Prop :=
  match s.initialRegion, s.currentRegion with
  | some initial, some current =>
      calculateDistance initial.latitude initial.longitude
        current.latitude current.longitude > s.filters.radius * 0.5
  | _, _ => False

/-- `fetchStalls(latitude, longitude, useCurrentRadius)` up to the
`await`: sets `loading`, composes the query from the current filters and
registers the in-flight request.  The response is applied later by the
`fetchResolved` event. -/
noncomputable def fetchStalls (s : State) (latitude longitude : ℝ)
    (useCurrentRadius : Bool) : State :=
  let radius := if useCurrentRadius then s.filters.radius else calculateRequiredRadius s
  let req : Request :=
    { seq := s.nextSeq, latitude := latitude, longitude := longitude, radius := radius
      cuisine_type := s.filters.cuisine_type
      price_range := s.filters.price_range
      dietary := s.filters.dietary }
  { s with loading := true
           pending := s.pending ++ [s.nextSeq]
           nextSeq := s.nextSeq + 1
           issued := s.issued ++ [req] }

/-- How an in-flight `fetch` settles: `threw` covers a network failure or
a JSON parse failure (the `catch` path); `resolved httpOk body` is a
response whose body parsed, with `httpOk` recording whether the status
was 2xx — a flag the component never reads. -/
inductive FetchOutcome where
  | threw
  | resolved (httpOk : Bool) (body : Json)

/-- External events driving the component. -/
inductive Event where
  /-- Mount effect, permission granted: sets `location`, both regions
  (spans 0.02) and issues the initial query. -/
  | locationGranted (lat lon : ℝ)
  /-- Mount effect, permission denied. -/
  | locationDenied
  /-- `onFilterChange` callback followed by the `[filters]` effect. -/
  | filtersApplied (f : Filters)
  /-- `onRegionChangeComplete`. -/
  | regionChangeComplete (r : Region)
  /-- "Search This Area" button press. -/
  | searchAreaPress
  /-- The promise of request `seq` settles with `outcome`. -/
  | fetchResolved (seq : Nat) (outcome : FetchOutcome)

/-- The mount effect when permission is granted: store the fix, set both
regions around it with spans 0.02, and fetch. -/
noncomputable def handleLocationGranted (s : State) (lat lon : ℝ) : State :=
  let region : Region :=
    { latitude := lat, longitude := lon, latitudeDelta := 0.02, longitudeDelta := 0.02 }
  let s1 := { s with location := some (⟨lat, lon⟩ : Coord)
                     initialRegion := some region
                     currentRegion := some region }
  fetchStalls s1 lat lon true

/-- `setFilters` plus the `[filters]` effect, which refetches at
`location.coords` (the original fix) when a location exists. -/
noncomputable def handleFilterChange (s : State) (f : Filters) : State :=
  let s1 := { s with filters := f }
  match s1.location with
  | some c => fetchStalls s1 c.latitude c.longitude true
  | none => s1

open scoped Classical in
/-- `handleRegionChange(region)`.  `setCurrentRegion` only takes effect on
the next render, so the two `isOutsideSearchRadius()` calls in the handler
still read the previous `currentRegion` — the drift test is evaluated on
the incoming state `s`, while the stored region is updated to `r`. -/
noncomputable def handleRegionChange (s : State) (r : Region) : State :=
  let s1 := { s with currentRegion := some r }
  if isOutsideSearchRadius s ∧ s.showSearchAreaButton = false then
    { s1 with showSearchAreaButton := true }
  else if ¬ isOutsideSearchRadius s ∧ s.showSearchAreaButton = true then
    { s1 with showSearchAreaButton := false }
  else s1

/-- `handleSearchAreaPress()`: fetch at the current map center with the
drift-derived radius, then replace the anchor region. -/
noncomputable def handleSearchAreaPress (s : State) : State :=
  match s.currentRegion with
  | some r =>
      let s1 := fetchStalls s r.latitude r.longitude false
      { s1 with initialRegion := some r }
  | none => s

/-- Applying a settled fetch: the `try` continuation stores the parsed
body (never looking at `response.ok`) and hides the search-area button;
the `catch` sets the retryable error message; `finally` clears `loading`.
A sequence number that is not pending is ignored (no such promise). -/
noncomputable def applyFetchOutcome (s : State) (seq : Nat) (outcome : FetchOutcome) : State :=
  if seq ∈ s.pending then
    let s1 := { s with pending := s.pending.erase seq, loading := false }
    match outcome with
    | FetchOutcome.threw =>
        { s1 with errorMsg := some "Failed to load stalls. Please try again." }
    | FetchOutcome.resolved _ body =>
        { s1 with stalls := body, showSearchAreaButton := false }
  else s

/-- One step of the session machine. -/
noncomputable def step (s : State) : Event → State
  | Event.locationGranted lat lon => handleLocationGranted s lat lon
  | Event.locationDenied =>
      { s with errorMsg := some "Permission to access location was denied", loading := false }
  | Event.filtersApplied f => handleFilterChange s f
  | Event.regionChangeComplete r => handleRegionChange s r
  | Event.searchAreaPress => handleSearchAreaPress s
  | Event.fetchResolved seq outcome => applyFetchOutcome s seq outcome

/-- Run the component from its initial state over a list of events. -/
noncomputable def run (events : List Event) : State :=
  events.foldl step initState

/-- The most recently issued query, if any. -/
def lastIssued (s : State) : Option Request :=
  s.issued.getLast?

/-- Modelled from the spec: `SearchAnchor` is "the point and radius of
the most recently executed query" and
`hasDrifted(anchor, viewport, driftFactor=0.5)` is
`distanceKm(anchor.center, viewport.center) > anchor.radiusKm * driftFactor`.
The source stores no such anchor record; this predicate reads the last
issued query from the bookkeeping log. -/
noncomputable def specHasDrifted (s : State) : Prop :=
  match lastIssued s, s.currentRegion with
  | some req, some current =>
      calculateDistance req.latitude req.longitude
        current.latitude current.longitude > req.radius * 0.5
  | _, _ => False

/-- Concrete session state after the trace prefix
`locationGranted (0,100)` then a successful response with body `[7]`:
used by the C1 and C7 counterexample runs. -/
noncomputable def stateAfterFix : State :=
  { location := some ⟨0, 100⟩, errorMsg := none, stalls := Json.arr [7],
    loading := false, initialRegion := some ⟨0, 100, 0.02, 0.02⟩,
    currentRegion := some ⟨0, 100, 0.02, 0.02⟩, showSearchAreaButton := false,
    filters := ⟨none, none, none, 2⟩, pending := [], nextSeq := 1,
    issued := [⟨0, 0, 100, 2, none, none, none⟩] }

/-- C1 trace: state after additionally zooming to a tiny viewport. -/
noncomputable def c1s3 : State :=
  { stateAfterFix with currentRegion := some ⟨0, 100, 0.0001, 0.0001⟩ }

/-- C1 trace: state after the "Search This Area" press on the tiny
viewport and its successful response with body `[8]`. -/
noncomputable def c1s5 : State :=
  { location := some ⟨0, 100⟩, errorMsg := none, stalls := Json.arr [8],
    loading := false, initialRegion := some ⟨0, 100, 0.0001, 0.0001⟩,
    currentRegion := some ⟨0, 100, 0.0001, 0.0001⟩, showSearchAreaButton := false,
    filters := ⟨none, none, none, 2⟩, pending := [], nextSeq := 2,
    issued := [⟨0, 0, 100, 2, none, none, none⟩,
      ⟨1, 0, 100, requiredRadiusOfRegion ⟨0, 100, 0.0001, 0.0001⟩, none, none, none⟩] }

/-- C1 trace: final state, viewport panned 0.006 degrees east. -/
noncomputable def c1s6 : State :=
  { c1s5 with currentRegion := some ⟨0, 100.006, 0.0001, 0.0001⟩ }

/-- C7 trace: state after the viewport moved 0.012 degrees east (drift
check still sees the stale previous region). -/
noncomputable def c7s3 : State :=
  { stateAfterFix with currentRegion := some ⟨0, 100.012, 0.02, 0.02⟩ }

/-- C7 trace: state after the second region event detects drift. -/
noncomputable def c7s4 : State :=
  { c7s3 with showSearchAreaButton := true }

/-- C7 trace: final state after the press and the failed re-search. -/
noncomputable def c7s6 : State :=
  { location := some ⟨0, 100⟩,
    errorMsg := some "Failed to load stalls. Please try again.",
    stalls := Json.arr [7], loading := false,
    initialRegion := some ⟨0, 100.012, 0.02, 0.02⟩,
    currentRegion := some ⟨0, 100.012, 0.02, 0.02⟩, showSearchAreaButton := true,
    filters := ⟨none, none, none, 2⟩, pending := [], nextSeq := 2,
    issued := [⟨0, 0, 100, 2, none, none, none⟩,
      ⟨1, 0, 100.012, requiredRadiusOfRegion ⟨0, 100.012, 0.02, 0.02⟩,
        none, none, none⟩] }

/-- Concrete state with coinciding regions, for the C1 witness. -/
noncomputable def c1wState : State :=
  { initState with initialRegion := some ⟨5, 6, 1, 1⟩,
                   currentRegion := some ⟨5, 6, 1, 1⟩ }

/-- Concrete state with a region and a pending request, for the C7
witness. -/
noncomputable def c7wState : State :=
  { initState with currentRegion := some ⟨1, 2, 3, 4⟩, pending := [5],
                   showSearchAreaButton := true }

/-- C2 trace: state after the initial fix at `(0, 100)` (response still
pending). -/
noncomputable def c2s1 : State :=
  { location := some ⟨0, 100⟩, errorMsg := none, stalls := Json.arr [],
    loading := true, initialRegion := some ⟨0, 100, 0.02, 0.02⟩,
    currentRegion := some ⟨0, 100, 0.02, 0.02⟩, showSearchAreaButton := false,
    filters := ⟨none, none, none, 2⟩, pending := [0], nextSeq := 1,
    issued := [⟨0, 0, 100, 2, none, none, none⟩] }

/-- C2 trace: state after the viewport moved to `(0.5, 101)`. -/
noncomputable def c2s2 : State :=
  { c2s1 with currentRegion := some ⟨0.5, 101, 0.02, 0.02⟩ }

/-- C2 trace: final state after a "Search This Area" press (anchor moved
to `(0.5, 101)`) and a subsequent filter edit, whose query went to the
original fix `(0, 100)`. -/
noncomputable def c2s4 : State :=
  { location := some ⟨0, 100⟩, errorMsg := none, stalls := Json.arr [],
    loading := true, initialRegion := some ⟨0.5, 101, 0.02, 0.02⟩,
    currentRegion := some ⟨0.5, 101, 0.02, 0.02⟩, showSearchAreaButton := false,
    filters := ⟨some "Thai", none, none, 3⟩, pending := [0, 1, 2], nextSeq := 3,
    issued := [⟨0, 0, 100, 2, none, none, none⟩,
      ⟨1, 0.5, 101, requiredRadiusOfRegion ⟨0.5, 101, 0.02, 0.02⟩, none, none, none⟩,
      ⟨2, 0, 100, 3, some "Thai", none, none⟩] }

end EatSense

namespace EatSense

/-! ## Theorems -/

/-- C3: claimed — an input whose integer parse fails (e.g. `"abc"`) yields
the unknown tier with empty symbol.  The code instead lets the `NaN`
average fall through every `<` test: `renderPriceIndicator("abc")` renders
`"$$$$"`, the maximum-price indicator, contradicting the claim (and the
explicit handling of `null`/`"Unknown"`, which suppresses the indicator). -/
theorem c3_theorem : renderPriceIndicator (some "abc") = some "$$$$" := by
  simp [renderPriceIndicator, avgPriceOf, jsSplit, jsParseInt, digitsVal,
    dollarSignsOf, jsLt]

/-- C4: for every price token that parses, the midpoint is `(min+max)/2`
for a `"min-max"` token, the stripped value for a `"value+"` token and the
parsed value for a bare numeric token; the symbol is `"$"` below 5, `"$$"`
on `[5,15)`, `"$$$"` on `[15,25)` and `"$$$$"` from 25 on; in particular
`"5-10"` renders `"$$"` and `"30+"` renders `"$$$$"`. -/
theorem c4_theorem :
    (∀ (cs p1 p2 : List Char) (rest : List (List Char)) (a b : Int),
      '-' ∈ cs → jsSplit '-' cs = p1 :: p2 :: rest →
      jsParseInt p1 = some a → jsParseInt p2 = some b →
      avgPriceOf cs = some (((a : ℚ) + (b : ℚ)) / 2)) ∧
    (∀ (cs : List Char) (a : Int),
      '-' ∉ cs → '+' ∈ cs →
      jsParseInt (jsReplaceFirst '+' cs) = some a →
      avgPriceOf cs = some (a : ℚ)) ∧
    (∀ (cs : List Char) (a : Int),
      '-' ∉ cs → '+' ∉ cs →
      jsParseInt cs = some a → avgPriceOf cs = some (a : ℚ)) ∧
    (∀ q : ℚ,
      (q < 5 → dollarSignsOf (some q) = "$") ∧
      (5 ≤ q → q < 15 → dollarSignsOf (some q) = "$$") ∧
      (15 ≤ q → q < 25 → dollarSignsOf (some q) = "$$$") ∧
      (25 ≤ q → dollarSignsOf (some q) = "$$$$")) ∧
    renderPriceIndicator (some "5-10") = some "$$" ∧
    renderPriceIndicator (some "30+") = some "$$$$" := by
  refine ⟨?_, ?_, ?_, ?_, ?_, ?_⟩
  · intro cs p1 p2 rest a b hdash hsplit hp1 hp2
    simp [avgPriceOf, hdash, hsplit, hp1, hp2]
  · intro cs a hdash hplus hparse
    simp [avgPriceOf, hdash, hplus, hparse]
  · intro cs a hdash hplus hparse
    simp [avgPriceOf, hdash, hplus, hparse]
  · intro q
    refine ⟨fun h => ?_, fun h5 h15 => ?_, fun h15 h25 => ?_, fun h25 => ?_⟩
    · simp [dollarSignsOf, jsLt, h]
    · simp [dollarSignsOf, jsLt, h15, (by linarith : ¬ q < 5)]
    · simp [dollarSignsOf, jsLt, h25, (by linarith : ¬ q < 5), (by linarith : ¬ q < 15)]
    · simp [dollarSignsOf, jsLt, (by linarith : ¬ q < 5), (by linarith : ¬ q < 15),
        (by linarith : ¬ q < 25)]
  · simp [renderPriceIndicator, avgPriceOf, jsSplit, jsParseInt, digitsVal,
      dollarSignsOf, jsLt]
    norm_num
  · simp [renderPriceIndicator, avgPriceOf, jsSplit, jsParseInt, digitsVal,
      dollarSignsOf, jsLt, jsReplaceFirst]
    norm_num

/-! ### GeoMath lemmas -/

/-- `arctan x ≤ x` for nonnegative `x`. -/
theorem arctan_le_self {x : ℝ} (hx : 0 ≤ x) : Real.arctan x ≤ x := by
  rcases eq_or_lt_of_le hx with h | h
  · simp [← h, Real.arctan_zero]
  · have h1 : 0 < Real.arctan x := by
      have := Real.arctan_strictMono h
      simpa [Real.arctan_zero] using this
    have h2 := Real.lt_tan h1 (Real.arctan_lt_pi_div_two x)
    rw [Real.tan_arctan] at h2
    exact h2.le

/-- `Math.atan2` is nonnegative on the closed first quadrant. -/
theorem atan2_nonneg {y x : ℝ} (hy : 0 ≤ y) (hx : 0 ≤ x) : 0 ≤ atan2 y x := by
  unfold atan2
  rcases lt_or_eq_of_le hx with hx' | hx'
  · rw [if_pos hx']
    have : Real.arctan 0 ≤ Real.arctan (y / x) :=
      (Real.arctan_strictMono.monotone (div_nonneg hy hx'.le))
    simpa [Real.arctan_zero] using this
  · rw [if_neg (by rw [← hx']; exact lt_irrefl 0), if_neg (by rw [← hx']; exact lt_irrefl 0)]
    rcases lt_or_eq_of_le hy with hy' | hy'
    · rw [if_pos hy']
      positivity
    · rw [if_neg (by rw [← hy']; exact lt_irrefl 0), if_neg (by rw [← hy']; exact lt_irrefl 0)]

/-- `atan2` on a positive abscissa is a plain `arctan`. -/
theorem atan2_of_pos {y x : ℝ} (hx : 0 < x) : atan2 y x = Real.arctan (y / x) := by
  unfold atan2
  rw [if_pos hx]

/-- The haversine distance of the source is nonnegative everywhere. -/
theorem calculateDistance_nonneg (lat1 lon1 lat2 lon2 : ℝ) :
    0 ≤ calculateDistance lat1 lon1 lat2 lon2 := by
  unfold calculateDistance
  have h := atan2_nonneg (Real.sqrt_nonneg (Real.sin (deg2rad (lat2 - lat1) / 2) *
      Real.sin (deg2rad (lat2 - lat1) / 2) +
      Real.cos (deg2rad lat1) * Real.cos (deg2rad lat2) *
      Real.sin (deg2rad (lon2 - lon1) / 2) * Real.sin (deg2rad (lon2 - lon1) / 2)))
    (Real.sqrt_nonneg (1 - (Real.sin (deg2rad (lat2 - lat1) / 2) *
      Real.sin (deg2rad (lat2 - lat1) / 2) +
      Real.cos (deg2rad lat1) * Real.cos (deg2rad lat2) *
      Real.sin (deg2rad (lon2 - lon1) / 2) * Real.sin (deg2rad (lon2 - lon1) / 2))))
  positivity

/-- Sine flips sign when the difference under `deg2rad` is reversed. -/
theorem sin_deg2rad_swap (u v : ℝ) :
    Real.sin (deg2rad (u - v) / 2) = -Real.sin (deg2rad (v - u) / 2) := by
  rw [show deg2rad (u - v) = -(deg2rad (v - u)) by unfold deg2rad; ring]
  rw [neg_div, Real.sin_neg]

/-- The haversine distance is symmetric in its two coordinates. -/
theorem calculateDistance_symm (lat1 lon1 lat2 lon2 : ℝ) :
    calculateDistance lat1 lon1 lat2 lon2 = calculateDistance lat2 lon2 lat1 lon1 := by
  simp only [calculateDistance]
  rw [sin_deg2rad_swap lat2 lat1, sin_deg2rad_swap lon2 lon1]
  ring_nf

/-- The haversine distance from a point to itself is exactly zero. -/
theorem calculateDistance_self (lat lon : ℝ) : calculateDistance lat lon lat lon = 0 := by
  unfold calculateDistance deg2rad
  simp [atan2_of_pos, Real.arctan_zero]

/-- `sin x ≤ x` for nonnegative `x`. -/
theorem sin_le_self {x : ℝ} (hx : 0 ≤ x) : Real.sin x ≤ x := by
  rcases eq_or_lt_of_le hx with h | h
  · simp [← h]
  · exact (Real.sin_lt h).le

/-- C6: `calculateDistance` is nonnegative, symmetric, and zero (within
the 1e-6 km tolerance — in fact exactly zero) on equal coordinates. -/
theorem c6_theorem (lat1 lon1 lat2 lon2 : ℝ) :
    0 ≤ calculateDistance lat1 lon1 lat2 lon2 ∧
    calculateDistance lat1 lon1 lat2 lon2 = calculateDistance lat2 lon2 lat1 lon1 ∧
    |calculateDistance lat1 lon1 lat1 lon1| ≤ 1 / 1000000 :=
  ⟨calculateDistance_nonneg lat1 lon1 lat2 lon2,
   calculateDistance_symm lat1 lon1 lat2 lon2, by
    rw [calculateDistance_self]
    norm_num⟩

/-- Exact haversine distance between two points on the equator less than
180 degrees of longitude apart: `6371` times the radian difference. -/
theorem calculateDistance_equator (l1 l2 : ℝ) (h0 : l1 ≤ l2) (hlt : l2 - l1 < 180) :
    calculateDistance 0 l1 0 l2 = 6371 * deg2rad (l2 - l1) := by
  have hpi := Real.pi_pos
  have hw0 : 0 ≤ deg2rad (l2 - l1) / 2 := by
    unfold deg2rad
    have : 0 ≤ l2 - l1 := by linarith
    positivity
  have hwlt : deg2rad (l2 - l1) / 2 < Real.pi / 2 := by
    unfold deg2rad
    rw [div_lt_div_iff₀ (by norm_num) (by norm_num)]
    nlinarith
  have hsin : 0 ≤ Real.sin (deg2rad (l2 - l1) / 2) :=
    Real.sin_nonneg_of_nonneg_of_le_pi hw0 (by linarith)
  have hcos : 0 < Real.cos (deg2rad (l2 - l1) / 2) :=
    Real.cos_pos_of_mem_Ioo ⟨by linarith, hwlt⟩
  simp only [calculateDistance]
  rw [sub_self, show deg2rad 0 = 0 by unfold deg2rad; ring]
  simp only [zero_div, Real.sin_zero, Real.cos_zero, mul_zero, zero_add, one_mul, zero_mul]
  rw [Real.sqrt_mul_self hsin]
  rw [show 1 - Real.sin (deg2rad (l2 - l1) / 2) * Real.sin (deg2rad (l2 - l1) / 2) =
      Real.cos (deg2rad (l2 - l1) / 2) * Real.cos (deg2rad (l2 - l1) / 2) by
    nlinarith [Real.sin_sq_add_cos_sq (deg2rad (l2 - l1) / 2)]]
  rw [Real.sqrt_mul_self hcos.le]
  rw [atan2_of_pos hcos, ← Real.tan_eq_sin_div_cos,
    Real.arctan_tan (by linarith) hwlt]
  ring

/-- Tiny corner offsets from an equatorial center give a corner distance
far below a quarter kilometre. -/
theorem calculateDistance_corner_small (lon dx dy : ℝ) (hx0 : 0 ≤ dx)
    (hx : dx ≤ 1 / 10000) (hy0 : 0 ≤ dy) (hy : dy ≤ 1 / 10000) :
    calculateDistance 0 lon dx (lon + dy) ≤ 1 / 4 := by
  have hpi := Real.pi_pos
  have hpilt : Real.pi < 3.15 := Real.pi_lt_d2
  have hpigt : 3 < Real.pi := Real.pi_gt_three
  simp only [calculateDistance]
  rw [sub_zero, add_sub_cancel_left, show deg2rad 0 = 0 by unfold deg2rad; ring,
    Real.cos_zero, one_mul]
  have hu0 : 0 ≤ deg2rad dx / 2 := by unfold deg2rad; positivity
  have hub : deg2rad dx / 2 ≤ 1 / 1000000 := by
    unfold deg2rad
    rw [div_le_div_iff₀ (by norm_num) (by norm_num)]
    nlinarith
  have hv0 : 0 ≤ deg2rad dy / 2 := by unfold deg2rad; positivity
  have hvb : deg2rad dy / 2 ≤ 1 / 1000000 := by
    unfold deg2rad
    rw [div_le_div_iff₀ (by norm_num) (by norm_num)]
    nlinarith
  have hsu : Real.sin (deg2rad dx / 2) * Real.sin (deg2rad dx / 2) ≤ (1 / 1000000) ^ 2 := by
    have h1 : 0 ≤ Real.sin (deg2rad dx / 2) :=
      Real.sin_nonneg_of_nonneg_of_le_pi hu0 (by linarith)
    have h2 : Real.sin (deg2rad dx / 2) ≤ 1 / 1000000 := (sin_le_self hu0).trans hub
    nlinarith
  have hsv : Real.sin (deg2rad dy / 2) * Real.sin (deg2rad dy / 2) ≤ (1 / 1000000) ^ 2 := by
    have h1 : 0 ≤ Real.sin (deg2rad dy / 2) :=
      Real.sin_nonneg_of_nonneg_of_le_pi hv0 (by linarith)
    have h2 : Real.sin (deg2rad dy / 2) ≤ 1 / 1000000 := (sin_le_self hv0).trans hvb
    nlinarith
  have hsv0 : 0 ≤ Real.sin (deg2rad dy / 2) * Real.sin (deg2rad dy / 2) := mul_self_nonneg _
  have hcle : Real.cos (deg2rad dx) ≤ 1 := Real.cos_le_one _
  have hcge : -1 ≤ Real.cos (deg2rad dx) := Real.neg_one_le_cos _
  set a := Real.sin (deg2rad dx / 2) * Real.sin (deg2rad dx / 2) +
      Real.cos (deg2rad dx) * Real.sin (deg2rad dy / 2) * Real.sin (deg2rad dy / 2) with ha
  have haub : a ≤ 2 * (1 / 1000000) ^ 2 := by
    rw [ha]
    nlinarith
  have hsqa : Real.sqrt a ≤ 1 / 700000 := by
    rw [show (1 : ℝ) / 700000 = Real.sqrt ((1 / 700000) ^ 2) by
      rw [Real.sqrt_sq (by norm_num)]]
    apply Real.sqrt_le_sqrt
    nlinarith
  have hsqb : (1 : ℝ) / 2 ≤ Real.sqrt (1 - a) := by
    rw [show (1 : ℝ) / 2 = Real.sqrt ((1 / 2) ^ 2) by rw [Real.sqrt_sq (by norm_num)]]
    apply Real.sqrt_le_sqrt
    nlinarith
  have hpos : (0 : ℝ) < Real.sqrt (1 - a) := lt_of_lt_of_le (by norm_num) hsqb
  rw [atan2_of_pos hpos]
  have hratio : Real.sqrt a / Real.sqrt (1 - a) ≤ 1 / 350000 := by
    have := div_le_div₀ (by norm_num : (0:ℝ) ≤ 1 / 700000) hsqa (by norm_num : (0:ℝ) < 1 / 2) hsqb
    calc Real.sqrt a / Real.sqrt (1 - a) ≤ 1 / 700000 / (1 / 2) := this
    _ = 1 / 350000 := by norm_num
  have harc : Real.arctan (Real.sqrt a / Real.sqrt (1 - a)) ≤ 1 / 350000 :=
    (arctan_le_self (div_nonneg (Real.sqrt_nonneg _) (Real.sqrt_nonneg _))).trans hratio
  have harc0 : 0 ≤ Real.arctan (Real.sqrt a / Real.sqrt (1 - a)) := by
    have := Real.arctan_strictMono.monotone
      (div_nonneg (Real.sqrt_nonneg a) (Real.sqrt_nonneg (1 - a)))
    simpa [Real.arctan_zero] using this
  nlinarith

/-- A corner distance of at most a quarter kilometre makes
`calculateRequiredRadius` clamp to its 1 km minimum. -/
theorem requiredRadiusOfRegion_eq_one {r : Region} (h : cornerDistance r ≤ 1 / 4) :
    requiredRadiusOfRegion r = 1 := by
  unfold requiredRadiusOfRegion jsCeil
  have h4 : cornerDistance r * 2 / 0.5 ≤ ((1 : ℤ) : ℝ) := by
    rw [show ((1 : ℤ) : ℝ) = 1 by norm_num,
      show cornerDistance r * 2 / 0.5 = cornerDistance r * 4 by ring]
    linarith
  have hceil : (⌈cornerDistance r * 2 / 0.5⌉ : ℤ) ≤ 1 := Int.ceil_le.mpr h4
  have hcast : ((⌈cornerDistance r * 2 / 0.5⌉ : ℤ) : ℝ) ≤ 1 := by exact_mod_cast hceil
  have : ((⌈cornerDistance r * 2 / 0.5⌉ : ℤ) : ℝ) * 0.5 ≤ 1 := by nlinarith
  exact max_eq_right this

/-- `requiredRadius` always dominates twice the corner distance. -/
theorem requiredRadiusOfRegion_ge (r : Region) :
    2 * cornerDistance r ≤ requiredRadiusOfRegion r := by
  unfold requiredRadiusOfRegion jsCeil
  apply le_trans _ (le_max_left _ 1)
  have h := Int.le_ceil (cornerDistance r * 2 / 0.5)
  have he : cornerDistance r * 2 / 0.5 = cornerDistance r * 4 := by ring
  nlinarith [h, he]

/-- The corner point of the viewport centered at the origin with spans
`(360, 360)` is `(180, 180)`, whose haversine distance from the origin is
exactly zero. -/
theorem cornerDistance_full_sphere : cornerDistance ⟨0, 0, 360, 360⟩ = 0 := by
  show calculateDistance 0 0 (0 + 360 / 2) (0 + 360 / 2) = 0
  norm_num
  simp only [calculateDistance, sub_zero]
  rw [show deg2rad (180 : ℝ) = Real.pi by unfold deg2rad; ring,
    show deg2rad (0 : ℝ) = 0 by unfold deg2rad; ring]
  rw [Real.sin_pi_div_two, Real.cos_zero, Real.cos_pi]
  norm_num [Real.sqrt_zero, Real.sqrt_one, atan2_of_pos, Real.arctan_zero]

/-- The corner point of the viewport centered at the origin with spans
`(180, 360)` is the point `(90, 180)`, a quarter circumference away:
exactly `6371 * π / 2` kilometres. -/
theorem cornerDistance_half_sphere : cornerDistance ⟨0, 0, 180, 360⟩ = 6371 * Real.pi / 2 := by
  show calculateDistance 0 0 (0 + 180 / 2) (0 + 360 / 2) = 6371 * Real.pi / 2
  norm_num
  simp only [calculateDistance, sub_zero]
  rw [show deg2rad (90 : ℝ) = Real.pi / 2 by unfold deg2rad; ring,
    show deg2rad (180 : ℝ) = Real.pi by unfold deg2rad; ring,
    show deg2rad (0 : ℝ) = 0 by unfold deg2rad; ring]
  rw [show Real.pi / 2 / 2 = Real.pi / 4 by ring]
  rw [Real.sin_pi_div_four, Real.sin_pi_div_two, Real.cos_zero, Real.cos_pi_div_two]
  have h2 : Real.sqrt 2 * Real.sqrt 2 = 2 := Real.mul_self_sqrt (by norm_num)
  rw [show Real.sqrt 2 / 2 * (Real.sqrt 2 / 2) + 1 * 0 * 1 * 1 = 1 / 2 by nlinarith]
  have hpos : (0 : ℝ) < Real.sqrt (1 - 1 / 2) := Real.sqrt_pos.mpr (by norm_num)
  rw [atan2_of_pos hpos]
  rw [show (1 : ℝ) - 1 / 2 = 1 / 2 by norm_num]
  rw [div_self (ne_of_gt (Real.sqrt_pos.mpr (by norm_num : (0:ℝ) < 1 / 2)))]
  rw [Real.arctan_one]
  ring

/-- C5 counterexample: growing the latitude span of an origin-centered
viewport from 180 to 360 (longitude span 360 throughout, all spans
positive) makes `calculateRequiredRadius` collapse from more than
19000 km to its 1 km minimum, so the result is not monotonically
non-decreasing in the span sizes. -/
theorem c5_counterexample :
    (0 : ℝ) < 180 ∧ (0 : ℝ) < 360 ∧ (180 : ℝ) ≤ 360 ∧
    requiredRadiusOfRegion ⟨0, 0, 360, 360⟩ < requiredRadiusOfRegion ⟨0, 0, 180, 360⟩ := by
  refine ⟨by norm_num, by norm_num, by norm_num, ?_⟩
  have h1 : requiredRadiusOfRegion ⟨0, 0, 360, 360⟩ = 1 :=
    requiredRadiusOfRegion_eq_one (by rw [cornerDistance_full_sphere]; norm_num)
  have h2 := requiredRadiusOfRegion_ge ⟨0, 0, 180, 360⟩
  rw [cornerDistance_half_sphere] at h2
  have hpi := Real.pi_gt_three
  rw [h1]
  nlinarith

/-- `cos w` in terms of the squared sine of the half angle. -/
theorem cos_eq_one_sub_two_sin_sq (w : ℝ) :
    Real.cos w = 1 - 2 * (Real.sin (w / 2) * Real.sin (w / 2)) := by
  have h := Real.cos_two_mul' (w / 2)
  rw [show 2 * (w / 2) = w by ring] at h
  rw [h, Real.cos_sq']
  ring

/-- On `[0, π/4]` the squared sine stays below one half. -/
theorem sin_sq_le_half {u : ℝ} (hu0 : 0 ≤ u) (hu : u ≤ Real.pi / 4) :
    Real.sin u * Real.sin u ≤ 1 / 2 := by
  have hpi := Real.pi_pos
  have hs := Real.strictMonoOn_sin.monotoneOn
    (Set.mem_Icc.mpr ⟨by linarith, by linarith⟩)
    (Set.mem_Icc.mpr ⟨by linarith, by linarith⟩) hu
  rw [Real.sin_pi_div_four] at hs
  have h0 : 0 ≤ Real.sin u := Real.sin_nonneg_of_nonneg_of_le_pi hu0 (by linarith)
  have h2 : Real.sqrt 2 * Real.sqrt 2 = 2 := Real.mul_self_sqrt (by norm_num)
  nlinarith

/-- Sine is monotone on `[0, π/4]`. -/
theorem sin_mono_quarter {u u' : ℝ} (hu0 : 0 ≤ u) (huu : u ≤ u') (hu1 : u' ≤ Real.pi / 4) :
    Real.sin u ≤ Real.sin u' := by
  have hpi := Real.pi_pos
  exact Real.strictMonoOn_sin.monotoneOn
    (Set.mem_Icc.mpr ⟨by linarith, by linarith⟩)
    (Set.mem_Icc.mpr ⟨by linarith, by linarith⟩) huu

/-- The haversine term `a` of an equatorial corner computation is within
`[0, 1/2]` while both angles stay in `[0, π/2]`. -/
theorem hav_a_bounds {w x : ℝ} (hw0 : 0 ≤ w) (hw : w ≤ Real.pi / 2)
    (hx0 : 0 ≤ x) (hx : x ≤ Real.pi / 2) :
    0 ≤ Real.sin (w / 2) * Real.sin (w / 2) +
        Real.cos w * Real.sin (x / 2) * Real.sin (x / 2) ∧
      Real.sin (w / 2) * Real.sin (w / 2) +
        Real.cos w * Real.sin (x / 2) * Real.sin (x / 2) ≤ 1 / 2 := by
  have hU := sin_sq_le_half (by linarith : (0:ℝ) ≤ w / 2) (by linarith)
  have hV := sin_sq_le_half (by linarith : (0:ℝ) ≤ x / 2) (by linarith)
  have hU0 : 0 ≤ Real.sin (w / 2) * Real.sin (w / 2) := mul_self_nonneg _
  have hV0 : 0 ≤ Real.sin (x / 2) * Real.sin (x / 2) := mul_self_nonneg _
  rw [cos_eq_one_sub_two_sin_sq]
  constructor <;> nlinarith

/-- The haversine term `a` of an equatorial corner computation is
monotone in both angles on `[0, π/2]`. -/
theorem hav_a_mono {w x w' x' : ℝ} (hw0 : 0 ≤ w) (hww : w ≤ w') (hw1 : w' ≤ Real.pi / 2)
    (hx0 : 0 ≤ x) (hxx : x ≤ x') (hx1 : x' ≤ Real.pi / 2) :
    Real.sin (w / 2) * Real.sin (w / 2) +
        Real.cos w * Real.sin (x / 2) * Real.sin (x / 2) ≤
      Real.sin (w' / 2) * Real.sin (w' / 2) +
        Real.cos w' * Real.sin (x' / 2) * Real.sin (x' / 2) := by
  have hpi := Real.pi_pos
  have hsu0 : 0 ≤ Real.sin (w / 2) :=
    Real.sin_nonneg_of_nonneg_of_le_pi (by linarith) (by linarith)
  have hsv0 : 0 ≤ Real.sin (x / 2) :=
    Real.sin_nonneg_of_nonneg_of_le_pi (by linarith) (by linarith)
  have h1 : Real.sin (w / 2) ≤ Real.sin (w' / 2) :=
    sin_mono_quarter (by linarith) (by linarith) (by linarith)
  have h2 : Real.sin (x / 2) ≤ Real.sin (x' / 2) :=
    sin_mono_quarter (by linarith) (by linarith) (by linarith)
  have hUU : Real.sin (w / 2) * Real.sin (w / 2) ≤ Real.sin (w' / 2) * Real.sin (w' / 2) :=
    mul_self_le_mul_self hsu0 h1
  have hVV : Real.sin (x / 2) * Real.sin (x / 2) ≤ Real.sin (x' / 2) * Real.sin (x' / 2) :=
    mul_self_le_mul_self hsv0 h2
  have hU' := sin_sq_le_half (show (0:ℝ) ≤ w' / 2 by linarith) (by linarith)
  have hV' := sin_sq_le_half (show (0:ℝ) ≤ x' / 2 by linarith) (by linarith)
  rw [cos_eq_one_sub_two_sin_sq, cos_eq_one_sub_two_sin_sq]
  nlinarith

/-- The haversine-to-distance step is monotone in `a` on `[0, 1/2]`. -/
theorem hav_atan2_mono {a a' : ℝ} (haa : a ≤ a') (ha1 : a' ≤ 1 / 2) :
    atan2 (Real.sqrt a) (Real.sqrt (1 - a)) ≤ atan2 (Real.sqrt a') (Real.sqrt (1 - a')) := by
  have h1 : (0 : ℝ) < Real.sqrt (1 - a) := Real.sqrt_pos.mpr (by linarith)
  have h2 : (0 : ℝ) < Real.sqrt (1 - a') := Real.sqrt_pos.mpr (by linarith)
  rw [atan2_of_pos h1, atan2_of_pos h2]
  apply Real.arctan_strictMono.monotone
  exact div_le_div₀ (Real.sqrt_nonneg a') (Real.sqrt_le_sqrt haa) h2
    (Real.sqrt_le_sqrt (by linarith))

/-- For viewports centered on the equator with spans at most 180 degrees,
the corner distance grows with the spans. -/
theorem equator_corner_mono (lon : ℝ) {s t s' t' : ℝ} (hs0 : 0 ≤ s) (hss : s ≤ s')
    (hs1 : s' ≤ 180) (ht0 : 0 ≤ t) (htt : t ≤ t') (ht1 : t' ≤ 180) :
    cornerDistance ⟨0, lon, s, t⟩ ≤ cornerDistance ⟨0, lon, s', t'⟩ := by
  have hpi := Real.pi_pos
  show calculateDistance 0 lon (0 + s / 2) (lon + t / 2) ≤
    calculateDistance 0 lon (0 + s' / 2) (lon + t' / 2)
  simp only [calculateDistance, zero_add, sub_zero, add_sub_cancel_left]
  rw [show deg2rad (0 : ℝ) = 0 by unfold deg2rad; ring]
  simp only [Real.cos_zero, one_mul]
  have harg : ∀ z : ℝ, deg2rad (z / 2) / 2 = deg2rad z / 2 / 2 := by
    intro z; unfold deg2rad; ring
  have harg2 : ∀ z : ℝ, deg2rad (z / 2) = deg2rad z / 2 := by
    intro z; unfold deg2rad; ring
  rw [harg s, harg s', harg t, harg t', harg2 s, harg2 s']
  have hws : ∀ z : ℝ, 0 ≤ z → z ≤ 180 → deg2rad z / 2 ≤ Real.pi / 2 := by
    intro z h0 h1
    unfold deg2rad
    rw [div_le_div_iff₀ (by norm_num) (by norm_num)]
    nlinarith
  have hw0 : ∀ z : ℝ, 0 ≤ z → 0 ≤ deg2rad z / 2 := by
    intro z h0
    unfold deg2rad
    positivity
  have hmono : ∀ z z' : ℝ, z ≤ z' → deg2rad z / 2 ≤ deg2rad z' / 2 := by
    intro z z' h
    unfold deg2rad
    nlinarith
  have hb := hav_a_bounds (hw0 s hs0) (hws s hs0 (by linarith))
    (hw0 t ht0) (hws t ht0 (by linarith))
  have hb' := hav_a_bounds (hw0 s' (by linarith)) (hws s' (by linarith) hs1)
    (hw0 t' (by linarith)) (hws t' (by linarith) ht1)
  have hmm := hav_a_mono (hw0 s hs0) (hmono s s' hss) (hws s' (by linarith) hs1)
    (hw0 t ht0) (hmono t t' htt) (hws t' (by linarith) ht1)
  have := hav_atan2_mono hmm hb'.2
  nlinarith

/-- C5 (amended): `calculateRequiredRadius` on a region returns the least
multiple of 0.5 km that is at least twice the center-to-corner haversine
distance and at least 1 km — so it is always a multiple of 0.5 and at
least 1; monotonicity in the span sizes does not hold in general
(`c5_counterexample`), but does hold for viewports centered on the
equator whose spans stay within 180 degrees. -/
theorem c5_theorem :
    (∀ r : Region,
      (∃ m : ℤ, requiredRadiusOfRegion r = (m : ℝ) / 2) ∧
      1 ≤ requiredRadiusOfRegion r ∧
      2 * cornerDistance r ≤ requiredRadiusOfRegion r ∧
      (∀ m : ℤ, 1 ≤ (m : ℝ) / 2 → 2 * cornerDistance r ≤ (m : ℝ) / 2 →
        requiredRadiusOfRegion r ≤ (m : ℝ) / 2)) ∧
    (∀ lon s t s' t' : ℝ, 0 ≤ s → s ≤ s' → s' ≤ 180 → 0 ≤ t → t ≤ t' → t' ≤ 180 →
      requiredRadiusOfRegion ⟨0, lon, s, t⟩ ≤ requiredRadiusOfRegion ⟨0, lon, s', t'⟩) := by
  constructor
  · intro r
    refine ⟨?_, le_max_right _ _, requiredRadiusOfRegion_ge r, ?_⟩
    · unfold requiredRadiusOfRegion jsCeil
      rcases max_cases ((⌈cornerDistance r * 2 / 0.5⌉ : ℝ) * 0.5) 1 with ⟨heq, _⟩ | ⟨heq, _⟩
      · exact ⟨⌈cornerDistance r * 2 / 0.5⌉, by rw [heq]; ring⟩
      · exact ⟨2, by rw [heq]; norm_num⟩
    · intro m h1 h2
      unfold requiredRadiusOfRegion jsCeil
      apply max_le _ h1
      have hc : (⌈cornerDistance r * 2 / 0.5⌉ : ℤ) ≤ m := by
        apply Int.ceil_le.mpr
        rw [show cornerDistance r * 2 / 0.5 = cornerDistance r * 4 by ring]
        linarith
      have hcast : ((⌈cornerDistance r * 2 / 0.5⌉ : ℤ) : ℝ) ≤ (m : ℝ) := by exact_mod_cast hc
      nlinarith
  · intro lon s t s' t' hs0 hss hs1 ht0 htt ht1
    have hd := equator_corner_mono lon hs0 hss hs1 ht0 htt ht1
    unfold requiredRadiusOfRegion jsCeil
    apply max_le_max _ le_rfl
    have h45 : cornerDistance ⟨0, lon, s, t⟩ * 2 / 0.5 ≤
        cornerDistance ⟨0, lon, s', t'⟩ * 2 / 0.5 := by
      rw [show cornerDistance (⟨0, lon, s, t⟩ : Region) * 2 / 0.5 =
          cornerDistance ⟨0, lon, s, t⟩ * 4 by ring,
        show cornerDistance (⟨0, lon, s', t'⟩ : Region) * 2 / 0.5 =
          cornerDistance ⟨0, lon, s', t'⟩ * 4 by ring]
      linarith
    have hc : (⌈cornerDistance ⟨0, lon, s, t⟩ * 2 / 0.5⌉ : ℤ) ≤
        ⌈cornerDistance ⟨0, lon, s', t'⟩ * 2 / 0.5⌉ :=
      Int.ceil_mono h45
    have hcast : ((⌈cornerDistance ⟨0, lon, s, t⟩ * 2 / 0.5⌉ : ℤ) : ℝ) ≤
        ((⌈cornerDistance ⟨0, lon, s', t'⟩ * 2 / 0.5⌉ : ℤ) : ℝ) := by exact_mod_cast hc
    nlinarith

/-- Witness for C5 on the concrete viewports with spans `(1, 1)` and
`(2, 2)` at the origin. -/
theorem c5_witness :
    requiredRadiusOfRegion ⟨0, 0, 1, 1⟩ ≤ requiredRadiusOfRegion ⟨0, 0, 2, 2⟩ :=
  c5_theorem.2 0 1 1 2 2 (by norm_num) (by norm_num) (by norm_num)
    (by norm_num) (by norm_num) (by norm_num)

/-- Witness for C4 at the concrete token `"5-10"` and midpoint `7.5`. -/
theorem c4_witness :
    avgPriceOf "5-10".data = some ((((5 : Int) : ℚ) + ((10 : Int) : ℚ)) / 2) ∧
    dollarSignsOf (some (7.5 : ℚ)) = "$$" := by
  constructor
  · exact c4_theorem.1 "5-10".data ['5'] ['1', '0'] [] 5 10
      (by decide) (by decide) (by decide) (by decide)
  · exact (c4_theorem.2.2.2.1 (7.5 : ℚ)).2.1 (by norm_num) (by norm_num)

/-! ### Session machine lemmas -/

/-- The drift check is false whenever the viewport center coincides with
the anchor center (and the filter radius is nonnegative). -/
theorem isOutside_same_center {s : State} {i c : Region} (hi : s.initialRegion = some i)
    (hc : s.currentRegion = some c) (hlat : i.latitude = c.latitude)
    (hlon : i.longitude = c.longitude) (hr : 0 ≤ s.filters.radius) :
    ¬ isOutsideSearchRadius s := by
  unfold isOutsideSearchRadius
  rw [hi, hc]
  simp only [hlat, hlon, calculateDistance_self]
  intro h
  nlinarith

/-- A region-change event that finds no drift and no visible button just
stores the new region. -/
theorem handleRegionChange_no_drift {s : State} (r : Region)
    (h : ¬ isOutsideSearchRadius s) (hb : s.showSearchAreaButton = false) :
    handleRegionChange s r = { s with currentRegion := some r } := by
  unfold handleRegionChange
  rw [if_neg (by simp [h]), if_neg (by simp [hb])]

/-- A region-change event that finds drift while the button is hidden
stores the new region and shows the button. -/
theorem handleRegionChange_drift {s : State} (r : Region)
    (h : isOutsideSearchRadius s) (hb : s.showSearchAreaButton = false) :
    handleRegionChange s r =
      { s with currentRegion := some r, showSearchAreaButton := true } := by
  unfold handleRegionChange
  rw [if_pos ⟨h, hb⟩]

/-- C2 (amended): a filter edit leaves the anchor unchanged and re-issues
the query at the original location fix (`location.coords`) with the new
`filters.radius` — not at the current anchor center, which may differ
after a "Search This Area" press. -/
theorem c2_theorem (s : State) (f : Filters) (c : Coord) (h : s.location = some c) :
    (step s (Event.filtersApplied f)).initialRegion = s.initialRegion ∧
    lastIssued (step s (Event.filtersApplied f)) = some
      { seq := s.nextSeq, latitude := c.latitude, longitude := c.longitude,
        radius := f.radius, cuisine_type := f.cuisine_type,
        price_range := f.price_range, dietary := f.dietary } := by
  show (handleFilterChange s f).initialRegion = _ ∧ lastIssued (handleFilterChange s f) = _
  unfold handleFilterChange
  rw [show ({ s with filters := f } : State).location = some c from h]
  unfold fetchStalls lastIssued
  exact ⟨rfl, List.getLast?_concat _⟩

/-- Witness for C2 on a concrete state holding a location fix. -/
theorem c2_witness :
    (step { initState with location := some ⟨1, 2⟩ }
        (Event.filtersApplied ⟨some "Thai", none, none, 3⟩)).initialRegion =
      ({ initState with location := some (⟨1, 2⟩ : Coord) } : State).initialRegion ∧
    lastIssued (step { initState with location := some ⟨1, 2⟩ }
        (Event.filtersApplied ⟨some "Thai", none, none, 3⟩)) = some
      { seq := 0, latitude := 1, longitude := 2, radius := 3,
        cuisine_type := some "Thai", price_range := none, dietary := none } :=
  c2_theorem { initState with location := some ⟨1, 2⟩ } ⟨some "Thai", none, none, 3⟩ ⟨1, 2⟩ rfl

/-- C2 counterexample: after an explicit re-search moved the anchor to
`(0.5, 101)`, a filter edit issues its query at the *original location
fix* `(0, 100)` — not at the current anchor center — so the claim that
filter edits re-query at the anchor center fails on this reachable
state. -/
theorem c2_counterexample :
    (run [Event.locationGranted 0 100,
          Event.regionChangeComplete ⟨0.5, 101, 0.02, 0.02⟩,
          Event.searchAreaPress,
          Event.filtersApplied ⟨some "Thai", none, none, 3⟩]).initialRegion =
      some ⟨0.5, 101, 0.02, 0.02⟩ ∧
    lastIssued (run [Event.locationGranted 0 100,
          Event.regionChangeComplete ⟨0.5, 101, 0.02, 0.02⟩,
          Event.searchAreaPress,
          Event.filtersApplied ⟨some "Thai", none, none, 3⟩]) =
      some ⟨2, 0, 100, 3, some "Thai", none, none⟩ ∧
    ((0.5 : ℝ) ≠ 0 ∧ (101 : ℝ) ≠ 100) := by
  have h1 : step initState (Event.locationGranted 0 100) = c2s1 := rfl
  have h2 : step c2s1 (Event.regionChangeComplete ⟨0.5, 101, 0.02, 0.02⟩) = c2s2 := by
    show handleRegionChange _ _ = _
    rw [handleRegionChange_no_drift _
      (isOutside_same_center rfl rfl rfl rfl (show (0 : ℝ) ≤ 2 by norm_num)) rfl]
    rfl
  have h34 : step (step c2s2 Event.searchAreaPress)
      (Event.filtersApplied ⟨some "Thai", none, none, 3⟩) = c2s4 := rfl
  have hrun : run [Event.locationGranted 0 100,
          Event.regionChangeComplete ⟨0.5, 101, 0.02, 0.02⟩,
          Event.searchAreaPress,
          Event.filtersApplied ⟨some "Thai", none, none, 3⟩] = c2s4 := by
    show List.foldl step initState _ = _
    simp only [List.foldl]
    rw [h1, h2, h34]
  rw [hrun]
  exact ⟨rfl, rfl, by norm_num, by norm_num⟩

/-- C8 (amended): a query that fails with a thrown error (network or JSON
parse failure) leaves the result set, the anchor and the request log
untouched and surfaces the retryable error message; a non-2xx response
whose body parsed is not detected as a failure — its body replaces the
result set and no error is surfaced. -/
theorem c8_theorem (s : State) (seq : Nat) (h : seq ∈ s.pending) :
    ((step s (Event.fetchResolved seq FetchOutcome.threw)).stalls = s.stalls ∧
     (step s (Event.fetchResolved seq FetchOutcome.threw)).initialRegion = s.initialRegion ∧
     (step s (Event.fetchResolved seq FetchOutcome.threw)).issued = s.issued ∧
     (step s (Event.fetchResolved seq FetchOutcome.threw)).errorMsg =
       some "Failed to load stalls. Please try again.") ∧
    (∀ (ok : Bool) (body : Json),
      (step s (Event.fetchResolved seq (FetchOutcome.resolved ok body))).stalls = body ∧
      (step s (Event.fetchResolved seq (FetchOutcome.resolved ok body))).errorMsg =
        s.errorMsg) := by
  constructor
  · simp only [step]
    unfold applyFetchOutcome
    rw [if_pos h]
    exact ⟨rfl, rfl, rfl, rfl⟩
  · intro ok body
    simp only [step]
    unfold applyFetchOutcome
    rw [if_pos h]
    exact ⟨rfl, rfl⟩

/-- Witness for C8 on a concrete state with one pending request. -/
theorem c8_witness :
    (step { initState with pending := [0] }
        (Event.fetchResolved 0 FetchOutcome.threw)).errorMsg =
      some "Failed to load stalls. Please try again." ∧
    (step { initState with pending := [0] }
        (Event.fetchResolved 0 (FetchOutcome.resolved false (Json.obj "E")))).stalls =
      Json.obj "E" :=
  ⟨(c8_theorem { initState with pending := [0] } 0 (by simp)).1.2.2.2,
   ((c8_theorem { initState with pending := [0] } 0 (by simp)).2 false (Json.obj "E")).1⟩

/-- C8 counterexample: after the initial fix, a non-2xx response whose
JSON body is an error object replaces the stall list with that body and
surfaces no error — the failure neither preserves the result set nor
produces a retryable error. -/
theorem c8_counterexample :
    (run [Event.locationGranted 0 100,
          Event.fetchResolved 0 (FetchOutcome.resolved false
            (Json.obj "Internal Server Error"))]).stalls =
        Json.obj "Internal Server Error" ∧
    (run [Event.locationGranted 0 100,
          Event.fetchResolved 0 (FetchOutcome.resolved false
            (Json.obj "Internal Server Error"))]).errorMsg = none ∧
    Json.obj "Internal Server Error" ≠ Json.arr [] := by
  refine ⟨rfl, rfl, by simp⟩

/-- C9 (amended): the component applies every completed response
unconditionally — the stored result set is the body of whichever pending
request resolved most recently, with no sequence-number check against
later-issued requests. -/
theorem c9_theorem (s : State) (seq : Nat) (ok : Bool) (body : Json) (h : seq ∈ s.pending) :
    (step s (Event.fetchResolved seq (FetchOutcome.resolved ok body))).stalls = body := by
  simp only [step]
  unfold applyFetchOutcome
  rw [if_pos h]

/-- Witness for C9 on a concrete state with one pending request. -/
theorem c9_witness :
    (step { initState with pending := [4] }
        (Event.fetchResolved 4 (FetchOutcome.resolved true (Json.arr [9])))).stalls =
      Json.arr [9] :=
  c9_theorem { initState with pending := [4] } 4 true (Json.arr [9]) (by simp)

/-- C9 counterexample: requests 0 and 1 overlap (1 issued after 0); the
response to request 1 (body `[2]`) arrives first, then the response to
request 0 (body `[1]`).  The displayed results end as `[1]` — the body of
the earlier-issued, stale request — so responses are not discarded by
sequence number. -/
theorem c9_counterexample :
    (run [Event.locationGranted 0 100,
          Event.filtersApplied ⟨none, none, none, 2⟩,
          Event.fetchResolved 1 (FetchOutcome.resolved true (Json.arr [2])),
          Event.fetchResolved 0 (FetchOutcome.resolved true (Json.arr [1]))]).stalls =
        Json.arr [1] ∧
    lastIssued (run [Event.locationGranted 0 100,
          Event.filtersApplied ⟨none, none, none, 2⟩,
          Event.fetchResolved 1 (FetchOutcome.resolved true (Json.arr [2])),
          Event.fetchResolved 0 (FetchOutcome.resolved true (Json.arr [1]))]) = some
      { seq := 1, latitude := 0, longitude := 100, radius := 2,
        cuisine_type := none, price_range := none, dietary := none } ∧
    Json.arr [1] ≠ Json.arr [2] := by
  refine ⟨rfl, rfl, by simp⟩

/-- The drift check is false whenever either region is still unset. -/
theorem isOutside_none {s : State}
    (h : s.initialRegion = none ∨ s.currentRegion = none) :
    ¬ isOutsideSearchRadius s := by
  rcases hi : s.initialRegion with _ | i
  · simp [isOutsideSearchRadius, hi]
  · rcases hc : s.currentRegion with _ | c
    · simp [isOutsideSearchRadius, hi, hc]
    · rcases h with h | h
      · rw [hi] at h; simp at h
      · rw [hc] at h; simp at h

/-- One step preserves "no region yet implies no visible button". -/
theorem step_button_inv {s : State} (e : Event)
    (h : (s.initialRegion = none ∨ s.currentRegion = none) → s.showSearchAreaButton = false) :
    ((step s e).initialRegion = none ∨ (step s e).currentRegion = none) →
      (step s e).showSearchAreaButton = false := by
  cases e with
  | locationGranted lat lon =>
      intro h'
      simp [step, handleLocationGranted, fetchStalls] at h'
  | locationDenied =>
      intro h'
      exact h h'
  | filtersApplied f =>
      intro h'
      simp only [step, handleFilterChange] at h' ⊢
      cases hl : s.location with
      | none => simp only [hl] at h' ⊢; exact h h'
      | some c => simp only [hl, fetchStalls] at h' ⊢; exact h h'
  | regionChangeComplete r =>
      intro h'
      simp only [step, handleRegionChange] at h' ⊢
      split_ifs at h' ⊢ with h1 h2
      · exfalso
        rcases h' with h' | h'
        · exact isOutside_none (Or.inl (show s.initialRegion = none from h')) h1.1
        · exact h'.elim
      · rfl
      · rcases h' with h' | h'
        · exact h (Or.inl (show s.initialRegion = none from h'))
        · exact h'.elim
  | searchAreaPress =>
      intro h'
      cases hc : s.currentRegion with
      | none =>
          have hstep : step s Event.searchAreaPress = s := by
            simp [step, handleSearchAreaPress, hc]
          rw [hstep]
          exact h (Or.inr hc)
      | some r =>
          exfalso
          have h1 : (step s Event.searchAreaPress).initialRegion = some r := by
            simp [step, handleSearchAreaPress, hc, fetchStalls]
          have h2 : (step s Event.searchAreaPress).currentRegion = s.currentRegion := by
            simp [step, handleSearchAreaPress, hc, fetchStalls]
          rcases h' with h' | h'
          · rw [h1] at h'; simp at h'
          · rw [h2, hc] at h'; simp at h'
  | fetchResolved seq outcome =>
      intro h'
      cases outcome with
      | threw =>
          simp only [step] at h' ⊢
          unfold applyFetchOutcome at h' ⊢
          split_ifs at h' ⊢
          · exact h h'
          · exact h h'
      | resolved ok body =>
          simp only [step] at h' ⊢
          unfold applyFetchOutcome at h' ⊢
          split_ifs at h' ⊢
          · rfl
          · exact h h'

/-- The invariant of `step_button_inv`, carried along a whole run. -/
theorem run_button_inv (events : List Event) :
    ∀ s : State,
      ((s.initialRegion = none ∨ s.currentRegion = none) → s.showSearchAreaButton = false) →
      (((events.foldl step s).initialRegion = none ∨
          (events.foldl step s).currentRegion = none) →
        (events.foldl step s).showSearchAreaButton = false) := by
  induction events with
  | nil => intro s h; exact h
  | cons e es ih => intro s h; exact ih (step s e) (step_button_inv e h)

/-- C10: when either region is still unset the drift check returns false,
and along every event run the search-area affordance stays hidden while
either region is unset — in particular before the first location fix. -/
theorem c10_theorem :
    (∀ s : State, (s.initialRegion = none ∨ s.currentRegion = none) →
      ¬ isOutsideSearchRadius s) ∧
    (∀ events : List Event,
      ((run events).initialRegion = none ∨ (run events).currentRegion = none) →
      (run events).showSearchAreaButton = false) :=
  ⟨fun _ h => isOutside_none h,
   fun events => run_button_inv events initState (fun _ => rfl)⟩

/-- Witness for C10 on the initial state and a permission-denied run. -/
theorem c10_witness :
    ¬ isOutsideSearchRadius initState ∧
    (run [Event.locationDenied]).showSearchAreaButton = false :=
  ⟨c10_theorem.1 initState (Or.inl rfl), c10_theorem.2 [Event.locationDenied] (Or.inl rfl)⟩

/-- C1 (amended): the drift check compares the anchor-to-viewport
distance against `filters.radius * 0.5` — the *current filter radius*,
which need not equal the radius of the most recently executed query — and
is false when the centers coincide. -/
theorem c1_theorem :
    (∀ s : State, isOutsideSearchRadius s ↔
      ∃ i c : Region, s.initialRegion = some i ∧ s.currentRegion = some c ∧
        calculateDistance i.latitude i.longitude c.latitude c.longitude >
          s.filters.radius * 0.5) ∧
    (∀ (s : State) (i c : Region), s.initialRegion = some i → s.currentRegion = some c →
      i.latitude = c.latitude → i.longitude = c.longitude → 0 ≤ s.filters.radius →
      ¬ isOutsideSearchRadius s) := by
  constructor
  · intro s
    rcases hi : s.initialRegion with _ | i
    · simp [isOutsideSearchRadius, hi]
    · rcases hc : s.currentRegion with _ | c
      · simp [isOutsideSearchRadius, hi, hc]
      · simp [isOutsideSearchRadius, hi, hc]
  · intro s i c hi hc hlat hlon hr
    exact isOutside_same_center hi hc hlat hlon hr

/-- Witness for C1 on a concrete state whose two regions coincide. -/
theorem c1_witness : ¬ isOutsideSearchRadius c1wState :=
  c1_theorem.2 c1wState ⟨5, 6, 1, 1⟩ ⟨5, 6, 1, 1⟩ rfl rfl rfl rfl
    (show (0 : ℝ) ≤ 2 by norm_num)

/-- C1 counterexample: after a "Search This Area" press on a tiny
viewport, the most recently executed query has radius 1 km while
`filters.radius` is still 2 km.  Panning 0.006 degrees (≈ 0.667 km) then
exceeds half the last query's radius — the spec's `hasDrifted` with the
anchor of §3 is true — yet `isOutsideSearchRadius` returns false, so the
claimed "if and only if" fails on this reachable state. -/
theorem c1_counterexample :
    specHasDrifted (run
      [Event.locationGranted 0 100,
       Event.fetchResolved 0 (FetchOutcome.resolved true (Json.arr [7])),
       Event.regionChangeComplete ⟨0, 100, 0.0001, 0.0001⟩,
       Event.searchAreaPress,
       Event.fetchResolved 1 (FetchOutcome.resolved true (Json.arr [8])),
       Event.regionChangeComplete ⟨0, 100.006, 0.0001, 0.0001⟩]) ∧
    ¬ isOutsideSearchRadius (run
      [Event.locationGranted 0 100,
       Event.fetchResolved 0 (FetchOutcome.resolved true (Json.arr [7])),
       Event.regionChangeComplete ⟨0, 100, 0.0001, 0.0001⟩,
       Event.searchAreaPress,
       Event.fetchResolved 1 (FetchOutcome.resolved true (Json.arr [8])),
       Event.regionChangeComplete ⟨0, 100.006, 0.0001, 0.0001⟩]) := by
  have h12 : step (step initState (Event.locationGranted 0 100))
      (Event.fetchResolved 0 (FetchOutcome.resolved true (Json.arr [7]))) =
      stateAfterFix := rfl
  have h3 : step stateAfterFix (Event.regionChangeComplete ⟨0, 100, 0.0001, 0.0001⟩) =
      c1s3 := by
    show handleRegionChange _ _ = _
    rw [handleRegionChange_no_drift _
      (isOutside_same_center rfl rfl rfl rfl (show (0 : ℝ) ≤ 2 by norm_num)) rfl]
    rfl
  have h45 : step (step c1s3 Event.searchAreaPress)
      (Event.fetchResolved 1 (FetchOutcome.resolved true (Json.arr [8]))) = c1s5 := rfl
  have h6 : step c1s5 (Event.regionChangeComplete ⟨0, 100.006, 0.0001, 0.0001⟩) =
      c1s6 := by
    show handleRegionChange _ _ = _
    rw [handleRegionChange_no_drift _
      (isOutside_same_center rfl rfl rfl rfl (show (0 : ℝ) ≤ 2 by norm_num)) rfl]
    rfl
  have hrun : run
      [Event.locationGranted 0 100,
       Event.fetchResolved 0 (FetchOutcome.resolved true (Json.arr [7])),
       Event.regionChangeComplete ⟨0, 100, 0.0001, 0.0001⟩,
       Event.searchAreaPress,
       Event.fetchResolved 1 (FetchOutcome.resolved true (Json.arr [8])),
       Event.regionChangeComplete ⟨0, 100.006, 0.0001, 0.0001⟩] = c1s6 := by
    show List.foldl step initState _ = _
    simp only [List.foldl]
    rw [h12, h3, h45, h6]
  have hreq : requiredRadiusOfRegion ⟨0, 100, 0.0001, 0.0001⟩ = 1 := by
    apply requiredRadiusOfRegion_eq_one
    show calculateDistance 0 100 (0 + 0.0001 / 2) (100 + 0.0001 / 2) ≤ 1 / 4
    exact calculateDistance_corner_small 100 (0 + 0.0001 / 2) (0.0001 / 2)
      (by norm_num) (by norm_num) (by norm_num) (by norm_num)
  have hdist : calculateDistance 0 100 0 100.006 = 6371 * deg2rad 0.006 := by
    have hd := calculateDistance_equator 100 100.006 (by norm_num) (by norm_num)
    rwa [show (100.006 : ℝ) - 100 = 0.006 by norm_num] at hd
  constructor
  · rw [hrun]
    show calculateDistance 0 100 0 100.006 >
      requiredRadiusOfRegion ⟨0, 100, 0.0001, 0.0001⟩ * 0.5
    rw [hreq, hdist]
    unfold deg2rad
    nlinarith [Real.pi_gt_three]
  · rw [hrun]
    show ¬ (calculateDistance 0 100 0 100.006 > (2 : ℝ) * 0.5)
    rw [hdist]
    unfold deg2rad
    intro hcon
    nlinarith [Real.pi_lt_d2]

/-- C7 (amended): a "Search This Area" press issues the query at the
current viewport center with the drift-derived radius and replaces the
anchor; the affordance then clears when a response body is applied —
regardless of drift — but is *not* cleared when the query fails. -/
theorem c7_theorem (s : State) (r : Region) (h : s.currentRegion = some r) :
    ((step s Event.searchAreaPress).initialRegion = some r ∧
     lastIssued (step s Event.searchAreaPress) = some
       { seq := s.nextSeq, latitude := r.latitude, longitude := r.longitude,
         radius := calculateRequiredRadius s, cuisine_type := s.filters.cuisine_type,
         price_range := s.filters.price_range, dietary := s.filters.dietary }) ∧
    (∀ (seq : Nat) (ok : Bool) (body : Json), seq ∈ s.pending →
      (step s (Event.fetchResolved seq
        (FetchOutcome.resolved ok body))).showSearchAreaButton = false) ∧
    (∀ seq : Nat, seq ∈ s.pending →
      (step s (Event.fetchResolved seq FetchOutcome.threw)).showSearchAreaButton =
        s.showSearchAreaButton) := by
  refine ⟨?_, ?_, ?_⟩
  · simp [step, handleSearchAreaPress, h, fetchStalls, lastIssued]
  · intro seq ok body hmem
    simp only [step]
    unfold applyFetchOutcome
    rw [if_pos hmem]
  · intro seq hmem
    simp only [step]
    unfold applyFetchOutcome
    rw [if_pos hmem]

/-- Witness for C7 on a concrete state with a region and one pending
request. -/
theorem c7_witness :
    (step c7wState Event.searchAreaPress).initialRegion = some ⟨1, 2, 3, 4⟩ ∧
    (step c7wState (Event.fetchResolved 5
      (FetchOutcome.resolved true (Json.arr [])))).showSearchAreaButton = false ∧
    (step c7wState (Event.fetchResolved 5 FetchOutcome.threw)).showSearchAreaButton =
      true :=
  ⟨(c7_theorem c7wState ⟨1, 2, 3, 4⟩ rfl).1.1,
   (c7_theorem c7wState ⟨1, 2, 3, 4⟩ rfl).2.1 5 true (Json.arr []) (by simp [c7wState]),
   ((c7_theorem c7wState ⟨1, 2, 3, 4⟩ rfl).2.2 5 (by simp [c7wState])).trans rfl⟩

/-- C7 counterexample: the search-area button is visible, the user
presses "Search This Area", and the re-search query fails (network
error).  The button does not clear — clearing only happens on a
successful response — so the affordance does not reset unconditionally. -/
theorem c7_counterexample :
    (run [Event.locationGranted 0 100,
          Event.fetchResolved 0 (FetchOutcome.resolved true (Json.arr [7])),
          Event.regionChangeComplete ⟨0, 100.012, 0.02, 0.02⟩,
          Event.regionChangeComplete ⟨0, 100.012, 0.02, 0.02⟩,
          Event.searchAreaPress,
          Event.fetchResolved 1 FetchOutcome.threw]).showSearchAreaButton = true ∧
    (run [Event.locationGranted 0 100,
          Event.fetchResolved 0 (FetchOutcome.resolved true (Json.arr [7])),
          Event.regionChangeComplete ⟨0, 100.012, 0.02, 0.02⟩,
          Event.regionChangeComplete ⟨0, 100.012, 0.02, 0.02⟩,
          Event.searchAreaPress,
          Event.fetchResolved 1 FetchOutcome.threw]).errorMsg =
      some "Failed to load stalls. Please try again." := by
  have h12 : step (step initState (Event.locationGranted 0 100))
      (Event.fetchResolved 0 (FetchOutcome.resolved true (Json.arr [7]))) =
      stateAfterFix := rfl
  have h3 : step stateAfterFix (Event.regionChangeComplete ⟨0, 100.012, 0.02, 0.02⟩) =
      c7s3 := by
    show handleRegionChange _ _ = _
    rw [handleRegionChange_no_drift _
      (isOutside_same_center rfl rfl rfl rfl (show (0 : ℝ) ≤ 2 by norm_num)) rfl]
    rfl
  have hdist12 : calculateDistance 0 100 0 100.012 = 6371 * deg2rad 0.012 := by
    have hd := calculateDistance_equator 100 100.012 (by norm_num) (by norm_num)
    rwa [show (100.012 : ℝ) - 100 = 0.012 by norm_num] at hd
  have hdrift : isOutsideSearchRadius c7s3 := by
    show calculateDistance 0 100 0 100.012 > (2 : ℝ) * 0.5
    rw [hdist12]
    unfold deg2rad
    nlinarith [Real.pi_gt_three]
  have h4 : step c7s3 (Event.regionChangeComplete ⟨0, 100.012, 0.02, 0.02⟩) = c7s4 := by
    show handleRegionChange _ _ = _
    rw [handleRegionChange_drift _ hdrift rfl]
    rfl
  have h56 : step (step c7s4 Event.searchAreaPress)
      (Event.fetchResolved 1 FetchOutcome.threw) = c7s6 := rfl
  have hrun : run [Event.locationGranted 0 100,
          Event.fetchResolved 0 (FetchOutcome.resolved true (Json.arr [7])),
          Event.regionChangeComplete ⟨0, 100.012, 0.02, 0.02⟩,
          Event.regionChangeComplete ⟨0, 100.012, 0.02, 0.02⟩,
          Event.searchAreaPress,
          Event.fetchResolved 1 FetchOutcome.threw] = c7s6 := by
    show List.foldl step initState _ = _
    simp only [List.foldl]
    rw [h12, h3, h4, h56]
  rw [hrun]
  exact ⟨rfl, rfl⟩

end EatSense
